import Mathlib

/-!
Verification of the structured-extraction pipeline of
src/document_analyzer/data_analysis.py (class DocumentAnalyzer).

The orchestrator (DocumentAnalyzer.__init__ and analyze_document) is embedded
from the source file. Its collaborators live outside src/ (the Metadata pydantic
model, the prompt registry, the langchain JsonOutputParser and OutputFixingParser,
ModelLoader, the global logger and DocumentPortalException); those are modelled
from the spec, each with a doc comment saying so.
-/

set_option autoImplicit false

namespace DocPortal

/-- JSON values as produced by the generator after JSON parsing. Numbers are
modelled as integers (the schema fields in play are strings, integers and
string sequences). -/
inductive Json where
  | null : Json
  | bool (b : Bool) : Json
  | num (n : Int) : Json
  | str (s : String) : Json
  | arr (xs : List Json) : Json
  | obj (fields : List (String × Json)) : Json

/-- Modelled from the spec: the declared type of a schema field
(title: string, tags: sequence of string, plus integer fields for the
coercion rules of section 4.3). -/
inductive FieldType where
  | strType : FieldType
  | intType : FieldType
  | listStrType : FieldType

/-- Modelled from the spec: a schema field has a name, a declared type and a
required/optional flag (section 3, Schema Definition). -/
structure FieldDef where
  name : String
  type : FieldType
  required : Bool

/-- Modelled from the spec: the Metadata pydantic model (model.models) is not
under src/; the spec gives the concrete example schema
title: string (required), tags: sequence of string (optional). -/
def metadataSchema : List FieldDef :=
  [⟨"title", FieldType.strType, true⟩, ⟨"tags", FieldType.listStrType, false⟩]

def Json.isStr : Json → Bool
  | .str _ => true
  | _ => false

/-- Modelled from the spec: per-field type coercion (section 4.3 step 1 and the
type-coercion policy): strings pass through, integers are accepted directly or
coerced from an unambiguous numeric string, sequences require a list of
strings; everything else is a validation failure. -/
def coerce : FieldType → Json → Option Json
  | .strType, .str s => some (.str s)
  | .intType, .num n => some (.num n)
  | .intType, .str s =>
    match String.toInt? s with
    | some n => some (.num n)
    | none => none
  | .listStrType, .arr xs => if xs.all Json.isStr then some (.arr xs) else none
  | _, _ => none

/-- A value already has the declared field type. -/
def wellTyped : FieldType → Json → Bool
  | .strType, .str _ => true
  | .intType, .num _ => true
  | .listStrType, .arr xs => xs.all Json.isStr
  | _, _ => false

/-- First value bound to a key in an association list (dict lookup). -/
def lookupStr {α : Type} (xs : List (String × α)) (k : String) : Option α :=
  match xs with
  | [] => none
  | (k2, v) :: rest => if k2 = k then some v else lookupStr rest k

/-- Modelled from the spec: validate the fields of a parsed JSON object against
the schema, in schema order (section 4.3). A missing required field or an
uncoercible value is a full validation failure (all-or-nothing policy); a
missing optional field is skipped; extra fields are ignored. -/
def validateFields (fields : List (String × Json)) : List FieldDef → Except String (List (String × Json))
  | [] => .ok []
  | fd :: rest =>
    match lookupStr fields fd.name with
    | some v =>
      match coerce fd.type v with
      | some v2 =>
        match validateFields fields rest with
        | .ok tl => .ok ((fd.name, v2) :: tl)
        | .error e => .error e
      | none => .error ("invalid type for field " ++ fd.name)
    | none =>
      if fd.required then .error ("missing required field " ++ fd.name)
      else validateFields fields rest

/-- Modelled from the spec: direct validation of a raw generator output against
the schema (section 4.3 step 1). `none` stands for generator text that is not
parseable JSON at all; a parsed non-object is also a validation failure. -/
def validate (schema : List FieldDef) (raw : Option Json) : Except String (List (String × Json)) :=
  match raw with
  | none => .error "malformed JSON"
  | some (.obj fields) => validateFields fields schema
  | some _ => .error "not a JSON object"

/-- Modelled from the spec: a raw output is schema-conformant when it parses to
a JSON object that supplies every declared schema field with a value of the
declared type (section 8 fast-path property: the result then has exactly the
schema fields). -/
def conformantFields (fields : List (String × Json)) : List FieldDef → Bool
  | [] => true
  | fd :: rest =>
    (match lookupStr fields fd.name with
     | some v => (coerce fd.type v).isSome
     | none => false) && conformantFields fields rest

/-- Schema-conformance of a raw generator output. -/
def conformant (schema : List FieldDef) (raw : Option Json) : Bool :=
  match raw with
  | some (.obj fields) => conformantFields fields schema
  | _ => false

mutual

/-- Plain rendering of a JSON value, used to quote the invalid raw output
inside a repair prompt. -/
def renderJson : Json → String
  | .null => "null"
  | .bool b => if b then "true" else "false"
  | .num n => toString n
  | .str s => s
  | .arr xs => "[" ++ renderList xs ++ "]"
  | .obj fs => "object(" ++ renderFields fs ++ ")"

def renderList : List Json → String
  | [] => ""
  | j :: rest => renderJson j ++ ", " ++ renderList rest

def renderFields : List (String × Json) → String
  | [] => ""
  | (k, v) :: rest => k ++ ": " ++ renderJson v ++ "; " ++ renderFields rest

end

/-- Text form of a raw output for diagnostics. -/
def rawText : Option Json → String
  | none => "unparseable text"
  | some j => renderJson j

/-- Modelled from the spec: the format instructions are derived
deterministically from the schema definition (section 3, FormatInstructions). -/
def formatInstructions (schema : List FieldDef) : String :=
  "Return a JSON object with fields: " ++ String.intercalate ", " (schema.map FieldDef.name)

/-- Modelled from the spec: the repair prompt contains the malformed raw
output, the validation error description and the format instructions
(section 4.3 step 3). -/
def repairPrompt (raw : Option Json) (err : String) (fi : String) : String :=
  "The previous output was invalid. Error: " ++ err ++ " Output: " ++ rawText raw ++ " " ++ fi

/-- A failure escaping the prompt-llm-fixing chain: an unresolved template
placeholder, or repair exhaustion carrying the last raw output and the last
validation error. -/
inductive ChainFailure where
  | templateError (missing : String) : ChainFailure
  | repairExhausted (lastRaw : Option Json) (lastErr : String) : ChainFailure

/-- Modelled from the spec: the prompt template is a sequence of literal parts
and named placeholders (section 3, Prompt). -/
inductive TemplatePart where
  | lit (s : String) : TemplatePart
  | placeholder (name : String) : TemplatePart

/-- Modelled from the spec: rendering one template part; the chain invocation
supplies exactly the variables format_instructions and document_text, and a
placeholder neither input satisfies is a TemplateError (section 4.1). -/
def renderPart (fi doc : String) : TemplatePart → Except String String
  | .lit s => .ok s
  | .placeholder n =>
    if n = "format_instructions" then .ok fi
    else if n = "document_text" then .ok doc
    else .error n

/-- Modelled from the spec: render the whole template, failing on the first
unresolved placeholder. -/
def renderTemplate (tmpl : List TemplatePart) (fi doc : String) : Except String String :=
  match tmpl with
  | [] => .ok ""
  | p :: rest =>
    match renderPart fi doc p with
    | .error n => .error n
    | .ok s =>
      match renderTemplate rest fi doc with
      | .error n => .error n
      | .ok t => .ok (s ++ t)

/-- Modelled from the spec: the prompt registered under the name
document_analysis has exactly the placeholders format_instructions and
document_text (sections 3 and 6). -/
def documentAnalysisTemplate : List TemplatePart :=
  [TemplatePart.lit "You are a document analysis assistant. ",
   TemplatePart.placeholder "format_instructions",
   TemplatePart.lit " Document: ",
   TemplatePart.placeholder "document_text"]

/-- Modelled from the spec: ModelLoader is an external capability whose
load_llm either yields a generator (a deterministic map from prompt text to
the parse result of the generated text, none meaning non-JSON output) or
fails. -/
structure ModelLoader where
  loadResult : Except String (String → Option Json)

/-- load_llm on the loader. -/
def load_llm (m : ModelLoader) : Except String (String → Option Json) :=
  m.loadResult

/-- Modelled from the spec: the repair-retry bound of
OutputFixingParser.from_llm is the library default; the spec fixes it as a
small explicit bound with recommended default 1 (section 9). -/
def outputFixingDefaultRetries : Nat := 1

/-- The analyzer instance as built by DocumentAnalyzer.__init__: the loader,
the llm handle, the parser schema (JsonOutputParser over the Metadata model),
(the field parser carries its schema), the fixing-retry bound of the
OutputFixingParser, and the prompt template. -/
structure Analyzer where
  loader : ModelLoader
  llm : String → Option Json
  parser : List FieldDef
  fixingBound : Nat
  prompt : List TemplatePart

/-- Modelled from the spec: the validating parser with repair (section 4.3).
Validate the raw output; on success return the structured result at once; on
failure, while fuel remains, re-invoke the generator on a repair prompt and
retry; with no fuel left, fail with the last raw output and last validation
error. The second component counts generator invocations made by the loop. -/
def repairLoop (schema : List FieldDef) (gen : String → Option Json) (fi : String) :
    Nat → Option Json → Except ChainFailure (List (String × Json)) × Nat
  | 0, raw =>
    match validate schema raw with
    | .ok fields => (.ok fields, 0)
    | .error err => (.error (.repairExhausted raw err), 0)
  | fuel2 + 1, raw =>
    match validate schema raw with
    | .ok fields => (.ok fields, 0)
    | .error err =>
      let r := repairLoop schema gen fi fuel2 (gen (repairPrompt raw err fi))
      (r.1, r.2 + 1)

/-- The chain prompt-llm-fixing built and invoked by analyze_document
(source lines 75-82): render the prompt with the format instructions and the
document text, generate once, then run the validating parser with repair.
The second component counts generator invocations of the whole call. -/
def runChain (a : Analyzer) (document_text : String) : Except ChainFailure Json × Nat :=
  match renderTemplate a.prompt (formatInstructions a.parser) document_text with
  | .error missing => (.error (.templateError missing), 0)
  | .ok p =>
    let r := repairLoop a.parser a.llm (formatInstructions a.parser) a.fixingBound (a.llm p)
    (match r.1 with
     | .ok fields => .ok (Json.obj fields)
     | .error e => .error e, r.2 + 1)

/-- Modelled from the spec: DocumentPortalException (exception.custom_exception
is not under src/) wraps a message together with the original causing error,
preserved for diagnostics (section 7). -/
inductive DocError where
  | wrapped (msg : String) (cause : String) : DocError

/-- A structured log event: a leveled message with an optional payload
(the logger collaborator of section 6). -/
inductive LogEvent where
  | info (msg : String) (payload : List String) : LogEvent
  | error (msg : String) (payload : String) : LogEvent

/-- The event logged right after the chain is built (source line 77). -/
def chainInitEvent : LogEvent :=
  LogEvent.info "Meta-data analysis chain initialized" []

/-- The key enumeration done on the success path (source line 84,
list(response.keys())): only a mapping has keys; on any other response shape
this raises inside the try block. -/
def keysOf : Json → Except String (List String)
  | .obj fields => .ok (fields.map Prod.fst)
  | _ => .error "response object has no keys method"

/-- The error message raised by a failing logger call, as seen by the except
handler. -/
def loggerFailureMsg : String := "logger failure"

/-- Python str(e) for a chain failure, as logged and preserved in the wrapped
exception. -/
def describeFailure : ChainFailure → String
  | .templateError n => "TemplateError: missing variable " ++ n
  | .repairExhausted raw err =>
    "OutputParserException: " ++ err ++ " raw: " ++ rawText raw

/-- The try/except body of analyze_document around the chain result (source
lines 74-90): on a chain failure, or on a response without keys, or when the
success log call itself raises (logRaises), the except handler logs the error
and raises DocumentPortalException with the cause; otherwise the response is
returned after the success log event. Also returns the emitted log events in
order. -/
def handleResponse (logRaises : Bool) (r : Except ChainFailure Json) :
    Except DocError Json × List LogEvent :=
  match r with
  | .error e =>
    (.error (.wrapped "Metadata extraction failed" (describeFailure e)),
     [chainInitEvent, LogEvent.error "Metadata analysis failed" (describeFailure e)])
  | .ok j =>
    match keysOf j with
    | .error ke =>
      (.error (.wrapped "Metadata extraction failed" ke),
       [chainInitEvent, LogEvent.error "Metadata analysis failed" ke])
    | .ok ks =>
      if logRaises then
        (.error (.wrapped "Metadata extraction failed" loggerFailureMsg),
         [chainInitEvent, LogEvent.error "Metadata analysis failed" loggerFailureMsg])
      else
        (.ok j, [chainInitEvent, LogEvent.info "Metadata extraction successful" ks])

/-- DocumentAnalyzer.analyze_document (source lines 70-90): build the chain
from the instance fields, invoke it on the format instructions and the
document text, and run the try/except body. The method assigns no instance
attribute, so the instance is threaded through unchanged as the last
component. logRaises models whether the global logger raises on the
success-path info event. -/
def analyze_document (a : Analyzer) (logRaises : Bool) (document_text : String) :
    (Except DocError Json × List LogEvent) × Analyzer :=
  (handleResponse logRaises (runChain a document_text).1, a)

/-- DocumentAnalyzer.__init__ (source lines 51-67): load the model, build the
parsers, look the prompt up in PROMPT_REGISTRY under the name
document_analysis; any failure is logged and re-raised as
DocumentPortalException with the initialization message, so no analyzer
instance is produced. -/
def initAnalyzer (ml : ModelLoader) (registry : List (String × List TemplatePart)) :
    Except DocError Analyzer :=
  match load_llm ml with
  | .error e => .error (.wrapped "Error in DocumentAnalyzer initialization" e)
  | .ok llm =>
    match lookupStr registry "document_analysis" with
    | none =>
      .error (.wrapped "Error in DocumentAnalyzer initialization"
        "KeyError: document_analysis")
    | some t =>
      .ok { loader := ml, llm := llm, parser := metadataSchema,
            fixingBound := outputFixingDefaultRetries, prompt := t }

/-- A conformant object validates, and the result carries exactly the schema
field names in schema order. -/
theorem conformantFields_validateFields (fields : List (String × Json)) :
    ∀ (schema : List FieldDef), conformantFields fields schema = true →
      ∃ out, validateFields fields schema = Except.ok out ∧
        out.map Prod.fst = schema.map FieldDef.name := by
  intro schema
  induction schema with
  | nil => intro _; exact ⟨[], rfl, rfl⟩
  | cons fd rest ih =>
    intro h
    simp only [conformantFields, Bool.and_eq_true] at h
    obtain ⟨h1, h2⟩ := h
    obtain ⟨out, hout, hkeys⟩ := ih h2
    simp only [validateFields]
    cases hl : lookupStr fields fd.name with
    | none => simp [hl] at h1
    | some v =>
      simp only [hl] at h1 ⊢
      cases hc : coerce fd.type v with
      | none => simp [hc] at h1
      | some v2 =>
        simp only [hc]
        rw [hout]
        exact ⟨(fd.name, v2) :: out, rfl, by simp [hkeys]⟩

/-- Coercion only produces values of the declared type. -/
theorem coerce_wellTyped (t : FieldType) (v v2 : Json)
    (h : coerce t v = some v2) : wellTyped t v2 = true := by
  cases t <;> cases v <;> simp only [coerce] at h <;>
    first
    | (cases h; rfl)
    | exact Option.noConfusion h
    | skip
  case intType.str s =>
    split at h
    · cases h; rfl
    · cases h
  case listStrType.arr xs =>
    split at h
    next hall => cases h; simpa [wellTyped] using hall
    next => cases h

/-- Every required schema field occurs among the keys of a successful
validation result. -/
theorem validateFields_required (fields : List (String × Json)) :
    ∀ (schema : List FieldDef) (out : List (String × Json)),
      validateFields fields schema = Except.ok out →
      ∀ fd ∈ schema, fd.required = true → fd.name ∈ out.map Prod.fst := by
  intro schema
  induction schema with
  | nil =>
    intro out _ fd hfd _
    cases hfd
  | cons fd0 rest ih =>
    intro out h fd hfd hreq
    simp only [validateFields] at h
    split at h
    next v hl =>
      split at h
      next v2 hc =>
        split at h
        next tl hv =>
          cases h
          rcases List.mem_cons.mp hfd with heq | hmem
          · subst heq; simp
          · simp only [List.map_cons]
            exact List.mem_cons_of_mem _ (ih tl hv fd hmem hreq)
        next e hv => cases h
      next hc => cases h
    next hl =>
      split at h
      next hr => cases h
      next hr =>
        rcases List.mem_cons.mp hfd with heq | hmem
        · subst heq; exact absurd hreq hr
        · exact ih out h fd hmem hreq

/-- Every entry of a successful validation result belongs to a schema field of
that name and has the declared type. -/
theorem validateFields_wellTyped (fields : List (String × Json)) :
    ∀ (schema : List FieldDef) (out : List (String × Json)),
      validateFields fields schema = Except.ok out →
      ∀ pr ∈ out, ∃ fd, fd ∈ schema ∧ fd.name = pr.1 ∧ wellTyped fd.type pr.2 = true := by
  intro schema
  induction schema with
  | nil =>
    intro out h pr hpr
    cases h
    cases hpr
  | cons fd0 rest ih =>
    intro out h pr hpr
    simp only [validateFields] at h
    split at h
    next v hl =>
      split at h
      next v2 hc =>
        split at h
        next tl hv =>
          cases h
          rcases List.mem_cons.mp hpr with heq | hmem
          · subst heq
            exact ⟨fd0, List.mem_cons_self _ _, rfl, coerce_wellTyped _ _ _ hc⟩
          · obtain ⟨fd, hfd, hn, hw⟩ := ih tl hv pr hmem
            exact ⟨fd, List.mem_cons_of_mem _ hfd, hn, hw⟩
        next e hv => cases h
      next hc => cases h
    next hl =>
      split at h
      next hr => cases h
      next hr =>
        obtain ⟨fd, hfd, hn, hw⟩ := ih out h pr hpr
        exact ⟨fd, List.mem_cons_of_mem _ hfd, hn, hw⟩

/-- Anything the repair loop returns successfully is the validation result of
some raw output. -/
theorem repairLoop_ok_validate (schema : List FieldDef) (gen : String → Option Json)
    (fi : String) :
    ∀ (fuel : Nat) (raw : Option Json) (out : List (String × Json)),
      (repairLoop schema gen fi fuel raw).1 = Except.ok out →
      ∃ r, validate schema r = Except.ok out := by
  intro fuel
  induction fuel with
  | zero =>
    intro raw out h
    simp only [repairLoop] at h
    split at h
    next fields hv => cases h; exact ⟨raw, hv⟩
    next err hv => cases h
  | succ fuel2 ih =>
    intro raw out h
    simp only [repairLoop] at h
    split at h
    next fields hv => cases h; exact ⟨raw, hv⟩
    next err hv => exact ih _ out h

/-- When no generator output ever validates, the repair loop spends all its
fuel, makes exactly fuel generator invocations, and fails with a last raw
output that indeed fails validation with the carried error. -/
theorem repairLoop_never_valid (schema : List FieldDef) (gen : String → Option Json)
    (fi : String)
    (hgen : ∀ q, ∃ e, validate schema (gen q) = Except.error e) :
    ∀ (fuel : Nat) (raw : Option Json) (err0 : String),
      validate schema raw = Except.error err0 →
      ∃ r e,
        repairLoop schema gen fi fuel raw =
          (Except.error (ChainFailure.repairExhausted r e), fuel) ∧
        validate schema r = Except.error e := by
  intro fuel
  induction fuel with
  | zero =>
    intro raw err0 h0
    exact ⟨raw, err0, by simp [repairLoop, h0], h0⟩
  | succ fuel2 ih =>
    intro raw err0 h0
    obtain ⟨r, e, hloop, hval⟩ :=
      ih (gen (repairPrompt raw err0 fi)) (hgen (repairPrompt raw err0 fi)).choose
        (hgen (repairPrompt raw err0 fi)).choose_spec
    refine ⟨r, e, ?_, hval⟩
    simp only [repairLoop, h0]
    rw [hloop]

/-- On an already-valid raw output the repair loop returns at once, with no
generator invocation, whatever fuel it has. -/
theorem repairLoop_valid_raw (schema : List FieldDef) (gen : String → Option Json)
    (fi : String) (fuel : Nat) (raw : Option Json) (out : List (String × Json))
    (h : validate schema raw = Except.ok out) :
    repairLoop schema gen fi fuel raw = (Except.ok out, 0) := by
  cases fuel <;> simp [repairLoop, h]

/-- A successful validation comes from an object whose fields validate. -/
theorem validate_ok_inv (schema : List FieldDef) (raw : Option Json)
    (out : List (String × Json)) (h : validate schema raw = Except.ok out) :
    ∃ flds, validateFields flds schema = Except.ok out := by
  cases raw with
  | none => exact Except.noConfusion h
  | some j =>
    cases j with
    | obj flds => exact ⟨flds, h⟩
    | null => exact Except.noConfusion h
    | bool b => exact Except.noConfusion h
    | num n => exact Except.noConfusion h
    | str s => exact Except.noConfusion h
    | arr xs => exact Except.noConfusion h

/-- A missing required field makes the whole validation fail, whatever the
other fields look like (all-or-nothing policy). -/
theorem validateFields_missing_required (flds : List (String × Json)) :
    ∀ (schema : List FieldDef) (fd : FieldDef), fd ∈ schema → fd.required = true →
      lookupStr flds fd.name = none →
      ∃ e, validateFields flds schema = Except.error e := by
  intro schema
  induction schema with
  | nil => intro fd hfd; cases hfd
  | cons fd0 rest ih =>
    intro fd hfd hreq hlook
    rcases List.mem_cons.mp hfd with heq | hmem
    · subst heq
      simp only [validateFields, hlook, hreq, if_true]
      exact ⟨_, rfl⟩
    · obtain ⟨e, he⟩ := ih fd hmem hreq hlook
      simp only [validateFields]
      cases hl : lookupStr flds fd0.name with
      | some v =>
        simp only [hl]
        cases hc : coerce fd0.type v with
        | some v2 => simp only [hc, he]; exact ⟨e, rfl⟩
        | none => simp only [hc]; exact ⟨_, rfl⟩
      | none =>
        simp only [hl]
        by_cases hr : fd0.required = true
        · simp only [hr, if_true]; exact ⟨_, rfl⟩
        · simp only [if_neg hr]; exact ⟨e, he⟩

/-- C1: a schema-conformant generator output is returned on the first parse
attempt, with exactly one generator invocation (so no repair invocation), and
the structured result carries exactly the schema's declared field names, in
schema order; extra fields in the generator output are dropped rather than
failing validation. -/
theorem c1_fast_path_exact_fields (a : Analyzer) (document_text p : String)
    (hrender : renderTemplate a.prompt (formatInstructions a.parser) document_text = Except.ok p)
    (hconf : conformant a.parser (a.llm p) = true) :
    ∃ fields, runChain a document_text = (Except.ok (Json.obj fields), 1) ∧
      fields.map Prod.fst = a.parser.map FieldDef.name := by
  obtain ⟨flds, hraw⟩ : ∃ flds, a.llm p = some (Json.obj flds) := by
    rcases hr : a.llm p with _ | j
    · rw [hr] at hconf; simp [conformant] at hconf
    · cases j <;> first
        | exact ⟨_, rfl⟩
        | (rw [hr] at hconf; simp [conformant] at hconf)
  have hconf2 : conformantFields flds a.parser = true := by
    rw [hraw] at hconf
    simpa [conformant] using hconf
  obtain ⟨out, hout, hkeys⟩ := conformantFields_validateFields flds a.parser hconf2
  have hval : validate a.parser (a.llm p) = Except.ok out := by
    rw [hraw]
    simpa [validate] using hout
  refine ⟨out, ?_, hkeys⟩
  simp only [runChain, hrender]
  rw [repairLoop_valid_raw a.parser a.llm (formatInstructions a.parser) a.fixingBound _ out hval]

/-- C2: a call either returns a mapping that is fully valid against the schema
(every required field present, every returned value of its declared type) or
fails; and a generator output with a required field missing, whatever its
other fields, is a full validation failure that makes the repair loop invoke
the generator again rather than being returned with the field absent. -/
theorem c2_all_or_nothing (a : Analyzer) (document_text : String) :
    (∀ j n, runChain a document_text = (Except.ok j, n) →
      ∃ fields, j = Json.obj fields ∧
        (∀ fd ∈ a.parser, fd.required = true → fd.name ∈ fields.map Prod.fst) ∧
        (∀ pr ∈ fields, ∃ fd, fd ∈ a.parser ∧ fd.name = pr.1 ∧ wellTyped fd.type pr.2 = true)) ∧
    (∀ (flds : List (String × Json)) (fd : FieldDef), fd ∈ a.parser → fd.required = true →
      lookupStr flds fd.name = none →
      (∃ e, validate a.parser (some (Json.obj flds)) = Except.error e) ∧
      ∀ k, 1 ≤ (repairLoop a.parser a.llm (formatInstructions a.parser) (k + 1)
        (some (Json.obj flds))).2) := by
  constructor
  · intro j n h
    simp only [runChain] at h
    split at h
    next missing hrend => simp at h
    next p hrend =>
      rw [Prod.mk.injEq] at h
      obtain ⟨h1, h2⟩ := h
      cases hrl : (repairLoop a.parser a.llm (formatInstructions a.parser) a.fixingBound (a.llm p)).1 with
      | error e =>
        simp only [hrl] at h1
        exact Except.noConfusion h1
      | ok fields =>
        simp only [hrl] at h1
        cases h1
        obtain ⟨r, hv⟩ :=
          repairLoop_ok_validate a.parser a.llm (formatInstructions a.parser) a.fixingBound _ _ hrl
        obtain ⟨flds, hflds⟩ := validate_ok_inv a.parser r fields hv
        exact ⟨fields, rfl, validateFields_required flds a.parser fields hflds,
          validateFields_wellTyped flds a.parser fields hflds⟩
  · intro flds fd hfd hreq hlook
    obtain ⟨e, he⟩ := validateFields_missing_required flds a.parser fd hfd hreq hlook
    have hval : validate a.parser (some (Json.obj flds)) = Except.error e := he
    refine ⟨⟨e, hval⟩, ?_⟩
    intro k
    simp only [repairLoop, hval]
    exact Nat.succ_le_succ (Nat.zero_le _)

/-- C3: against a generator none of whose outputs ever validates, the chain
terminates, fails with repair exhaustion carrying a last raw output and last
validation error that indeed fails validation with that error, and the
generator is invoked exactly bound + 1 times. -/
theorem c3_repair_exhaustion (a : Analyzer) (document_text p : String)
    (hrender : renderTemplate a.prompt (formatInstructions a.parser) document_text = Except.ok p)
    (hnever : ∀ q, ∃ e, validate a.parser (a.llm q) = Except.error e) :
    ∃ lastRaw lastErr,
      runChain a document_text =
        (Except.error (ChainFailure.repairExhausted lastRaw lastErr), a.fixingBound + 1) ∧
      validate a.parser lastRaw = Except.error lastErr := by
  obtain ⟨e0, he0⟩ := hnever p
  obtain ⟨r, e, hloop, hval⟩ :=
    repairLoop_never_valid a.parser a.llm (formatInstructions a.parser) hnever
      a.fixingBound (a.llm p) e0 he0
  refine ⟨r, e, ?_, hval⟩
  simp only [runChain, hrender]
  rw [hloop]

/-- A loader whose model loads (the loaded generator is irrelevant to the
samples, which carry their own llm). -/
def sampleLoader : ModelLoader := ⟨Except.ok (fun _ => none)⟩

/-- The generator of the spec's first concrete scenario: every schema field
present plus an extra field. -/
def conformantGen : String → Option Json :=
  fun _ => some (Json.obj
    [("title", Json.str "Report"),
     ("tags", Json.arr [Json.str "a", Json.str "b"]),
     ("extra", Json.str "x")])

/-- Sample analyzer wired to the conformant generator. -/
def conformantAnalyzer : Analyzer :=
  { loader := sampleLoader, llm := conformantGen, parser := metadataSchema,
    fixingBound := outputFixingDefaultRetries, prompt := documentAnalysisTemplate }

/-- A generator that always produces unparseable text. -/
def neverValidGen : String → Option Json := fun _ => none

/-- Sample analyzer, bound 2, wired to the never-valid generator (the spec's
third concrete scenario). -/
def neverValidAnalyzer : Analyzer :=
  { loader := sampleLoader, llm := neverValidGen, parser := metadataSchema,
    fixingBound := 2, prompt := documentAnalysisTemplate }

/-- A generator that always omits the required title field. -/
def missingFieldGen : String → Option Json :=
  fun _ => some (Json.obj [("tags", Json.arr [])])

/-- Sample analyzer wired to the generator that omits a required field. -/
def missingFieldAnalyzer : Analyzer :=
  { loader := sampleLoader, llm := missingFieldGen, parser := metadataSchema,
    fixingBound := outputFixingDefaultRetries, prompt := documentAnalysisTemplate }

/-- Witness for C1 at the spec's concrete scenario. -/
theorem c1_witness : ∃ fields,
    runChain conformantAnalyzer "doc" = (Except.ok (Json.obj fields), 1) ∧
    fields.map Prod.fst = conformantAnalyzer.parser.map FieldDef.name :=
  c1_fast_path_exact_fields conformantAnalyzer "doc" _ rfl (by decide)

/-- Witness for C2 at a generator output missing the required title field. -/
theorem c2_witness :
    (∃ e, validate missingFieldAnalyzer.parser
      (some (Json.obj [("tags", Json.arr [])])) = Except.error e) ∧
    1 ≤ (repairLoop missingFieldAnalyzer.parser missingFieldAnalyzer.llm
      (formatInstructions missingFieldAnalyzer.parser) (0 + 1)
      (some (Json.obj [("tags", Json.arr [])]))).2 :=
  ⟨((c2_all_or_nothing missingFieldAnalyzer "doc").2 [("tags", Json.arr [])]
      ⟨"title", FieldType.strType, true⟩ (List.mem_cons_self _ _) rfl rfl).1,
   ((c2_all_or_nothing missingFieldAnalyzer "doc").2 [("tags", Json.arr [])]
      ⟨"title", FieldType.strType, true⟩ (List.mem_cons_self _ _) rfl rfl).2 0⟩

/-- Witness for C3 at bound 2: three generator invocations, then exhaustion. -/
theorem c3_witness :
    ∃ lastRaw lastErr,
      runChain neverValidAnalyzer "doc" =
        (Except.error (ChainFailure.repairExhausted lastRaw lastErr),
         neverValidAnalyzer.fixingBound + 1) ∧
      validate neverValidAnalyzer.parser lastRaw = Except.error lastErr :=
  c3_repair_exhaustion neverValidAnalyzer "doc" _ rfl (fun _ => ⟨"malformed JSON", rfl⟩)

/-- C4: every failure escaping the chain is logged with its description and
re-raised as the single wrapped error kind, the original causing error
preserved in the wrapped error and in the log event. -/
theorem c4_wrap_and_log (a : Analyzer) (logRaises : Bool) (document_text : String)
    (e : ChainFailure) (n : Nat)
    (hfail : runChain a document_text = (Except.error e, n)) :
    analyze_document a logRaises document_text =
      ((Except.error (DocError.wrapped "Metadata extraction failed" (describeFailure e)),
        [chainInitEvent, LogEvent.error "Metadata analysis failed" (describeFailure e)]), a) := by
  simp only [analyze_document, hfail, handleResponse]

/-- Witness for C4 at the never-valid analyzer. -/
theorem c4_witness :
    analyze_document neverValidAnalyzer false "doc" =
      ((Except.error (DocError.wrapped "Metadata extraction failed"
          (describeFailure (ChainFailure.repairExhausted none "malformed JSON"))),
        [chainInitEvent, LogEvent.error "Metadata analysis failed"
          (describeFailure (ChainFailure.repairExhausted none "malformed JSON"))]),
       neverValidAnalyzer) :=
  c4_wrap_and_log neverValidAnalyzer false "doc"
    (ChainFailure.repairExhausted none "malformed JSON") 3 rfl

/-- C5: if model loading fails, or the prompt-template lookup under the name
document_analysis misses, construction fails with the initialization error; an
analyzer instance is only ever produced when both dependencies were
established. -/
theorem c5_init_failure (ml : ModelLoader) (registry : List (String × List TemplatePart)) :
    (∀ e, load_llm ml = Except.error e →
      initAnalyzer ml registry =
        Except.error (DocError.wrapped "Error in DocumentAnalyzer initialization" e)) ∧
    (∀ llm2, load_llm ml = Except.ok llm2 →
      lookupStr registry "document_analysis" = none →
      initAnalyzer ml registry =
        Except.error (DocError.wrapped "Error in DocumentAnalyzer initialization"
          "KeyError: document_analysis")) ∧
    (∀ a, initAnalyzer ml registry = Except.ok a →
      (∃ llm2, load_llm ml = Except.ok llm2) ∧
      ∃ t, lookupStr registry "document_analysis" = some t) := by
  refine ⟨?_, ?_, ?_⟩
  · intro e he
    simp only [initAnalyzer, he]
  · intro llm2 hl hreg
    simp only [initAnalyzer, hl, hreg]
  · intro a ha
    simp only [initAnalyzer] at ha
    split at ha
    next e he => exact Except.noConfusion ha
    next llm2 hl =>
      split at ha
      next hreg => exact Except.noConfusion ha
      next t hreg => exact ⟨⟨llm2, hl⟩, t, hreg⟩

/-- Witness for C5: an unavailable model yields the initialization error. -/
theorem c5_witness :
    initAnalyzer ⟨Except.error "model unavailable"⟩ [] =
      Except.error (DocError.wrapped "Error in DocumentAnalyzer initialization"
        "model unavailable") :=
  (c5_init_failure ⟨Except.error "model unavailable"⟩ []).1 "model unavailable" rfl

/-- C6: a second call on the instance left by a first call, with the same
document text and the same (deterministic) generator, yields exactly the same
outcome, and the first call leaves the instance unchanged: no state persists
across calls. -/
theorem c6_stateless_idempotent (a : Analyzer) (logRaises : Bool) (document_text : String) :
    analyze_document ((analyze_document a logRaises document_text).2) logRaises document_text =
      analyze_document a logRaises document_text ∧
    (analyze_document a logRaises document_text).2 = a :=
  ⟨rfl, rfl⟩

/-- C7: the claim fails on the code. With the logger healthy the pipeline
returns the structured result, but the success-path log call sits inside the
try block (source line 84), so a logger failure there is caught by the except
handler and the call raises the wrapped error, masking the successful
result. -/
theorem c7_logger_failure_masks_result :
    (analyze_document conformantAnalyzer false "doc").1.1 =
      Except.ok (Json.obj
        [("title", Json.str "Report"), ("tags", Json.arr [Json.str "a", Json.str "b"])]) ∧
    (analyze_document conformantAnalyzer true "doc").1.1 =
      Except.error (DocError.wrapped "Metadata extraction failed" loggerFailureMsg) :=
  ⟨rfl, rfl⟩

/-- C8: with the document_analysis template, an empty document text renders
without a TemplateError (the placeholder is satisfied by the empty string) and
the call proceeds to generation: the generator is invoked at least once. -/
theorem c8_empty_document_renders (ml : ModelLoader) (llm2 : String → Option Json)
    (schema : List FieldDef) (bound : Nat) :
    (∃ p, renderTemplate documentAnalysisTemplate (formatInstructions schema) "" =
      Except.ok p) ∧
    1 ≤ (runChain { loader := ml, llm := llm2, parser := schema,
                    fixingBound := bound, prompt := documentAnalysisTemplate } "").2 := by
  have hrend : renderTemplate documentAnalysisTemplate (formatInstructions schema) "" =
      Except.ok ("You are a document analysis assistant. " ++
        (formatInstructions schema ++ (" Document: " ++ ("" ++ "")))) := rfl
  refine ⟨⟨_, hrend⟩, ?_⟩
  simp only [runChain, hrend]
  exact Nat.succ_le_succ (Nat.zero_le _)

/-- C9: analyze_document leaves every configuration field of the instance
(loader, llm, parser schema, fixing bound, prompt) unchanged, whether it
returns or raises: the chain is a local value and no instance attribute is
assigned after construction. -/
theorem c9_frame_instance_config (a : Analyzer) (logRaises : Bool) (document_text : String) :
    (analyze_document a logRaises document_text).2.loader = a.loader ∧
    (analyze_document a logRaises document_text).2.llm = a.llm ∧
    (analyze_document a logRaises document_text).2.parser = a.parser ∧
    (analyze_document a logRaises document_text).2.fixingBound = a.fixingBound ∧
    (analyze_document a logRaises document_text).2.prompt = a.prompt :=
  ⟨rfl, rfl, rfl, rfl, rfl⟩

/-- C10: a chain response that is valid JSON but not an object has no keys to
enumerate on the success path, so the call raises the wrapped extraction error
instead of returning the value. -/
theorem c10_non_object_response_wrapped (logRaises : Bool) (j : Json)
    (hnotobj : ∀ flds, j ≠ Json.obj flds) :
    (handleResponse logRaises (Except.ok j)).1 =
      Except.error (DocError.wrapped "Metadata extraction failed"
        "response object has no keys method") := by
  cases j
  case obj flds => exact absurd rfl (hnotobj flds)
  all_goals rfl

/-- Witness for C10 at a JSON array response. -/
theorem c10_witness :
    (handleResponse false (Except.ok (Json.arr [Json.str "a"]))).1 =
      Except.error (DocError.wrapped "Metadata extraction failed"
        "response object has no keys method") :=
  c10_non_object_response_wrapped false (Json.arr [Json.str "a"])
    (fun _ h => Json.noConfusion h)

end DocPortal
